import Mathlib

/-!
A shallow embedding of the two-pass semantic analyser
(`src/semantic_analyser.cpp`) of a small tracing-event query language,
together with proofs about its behaviour.

The analyser walks the syntax tree twice, maintaining two per-program tables
(`map_args_`: key-type signature per map identifier; `map_val_`: value type per
map identifier), a diagnostic stream (`err_`) and a current-type register
(`type_`).  `analyse()` returns 0 on success or the 1-based number of the pass
whose end found a non-empty diagnostic stream, after writing the stream to
standard error.

The embedding is state-passing: each `visit` function maps a state to a state.
The C++ `std::map` tables become association lists (only `find`/`insert` are
used, so ordering is irrelevant); the `err_` stream becomes the list of the
appended message strings (the stream contents are their concatenation); the
`type_` register becomes the `ty` field.  One genuine gap in the source is made
explicit: `visit(Map&)` reads `map_val_.find(map.ident)->second` without
checking that the entry exists; the embedding returns the unspecified value
`junk` (a parameter of the whole analysis) in that case and counts the event in
the ghost field `misses`.
-/

namespace SemanticAnalyser

/-- Modelled from the spec: the closed set of result types used by the checker
(`None`, `Integer`, `Quantize`, `Count`).  The enum itself is declared in the
header `semantic_analyser.h`, which is not among the shown sources. -/
inductive Ty where
  | none
  | integer
  | quantize
  | count
deriving DecidableEq, Repr

/-- Modelled from the spec: the underlying integer carrier of the C++
`enum class Type`, in declaration order.  Values outside `0..3` exist in the
carrier but are never produced by the checker. -/
def Ty.code : Ty → Nat
  | Ty.none => 0
  | Ty.integer => 1
  | Ty.quantize => 2
  | Ty.count => 3

/-- `SemanticAnalyser::typestr`, lines 198-208: the switch over the enum's
underlying carrier.  The `default: abort()` branch is the `Option.none`
result. -/
def typestrCode : Nat → Option String
  | 0 => some "none"
  | 1 => some "integer"
  | 2 => some "quantize"
  | 3 => some "count"
  | _ => Option.none

/-- `SemanticAnalyser::typestr` restricted to the closed `Type` set, where the
switch is exhaustive. -/
def typestr (t : Ty) : String :=
  match t with
  | Ty.none => "none"
  | Ty.integer => "integer"
  | Ty.quantize => "quantize"
  | Ty.count => "count"

/-- Modelled from the spec: the external operator formatter `opstr` maps a
binary-operator node to its display string; the embedding stores that display
string in the node, so the formatter is the identity on it. -/
def opstr (op : String) : String := op

/-- Modelled from the spec: syntax-tree expression nodes (`ast.h` is not among
the shown sources).  `binop` carries the operator display string consumed by
`opstr`; a null `vargs` pointer is the empty list. -/
inductive Expr where
  | integer (n : Int)
  | builtin (ident : String)
  | call (func : String) (vargs : List Expr)
  | map (ident : String) (vargs : List Expr)
  | binop (op : String) (left : Expr) (right : Expr)
  | unop (op : String) (expr : Expr)
deriving Repr

/-- Modelled from the spec: statement nodes.  `assignMapCall` keeps the call's
function name and arguments inline (the node's `call` member). -/
inductive Stmt where
  | expr (e : Expr)
  | assignMap (mapIdent : String) (mapKeys : List Expr) (src : Expr)
  | assignMapCall (mapIdent : String) (mapKeys : List Expr)
      (func : String) (vargs : List Expr)
deriving Repr

/-- Modelled from the spec: a probe is an optional predicate plus an ordered
statement list. -/
structure Probe where
  pred : Option Expr
  stmts : List Stmt
deriving Repr

/-- Modelled from the spec: a program is an ordered probe list. -/
structure Program where
  probes : List Probe
deriving Repr

/-- The analyser's mutable state: the two tables `map_args_` and `map_val_`,
the diagnostic stream `err_` (as the list of appended messages), and the
`type_` register.  `misses` is ghost instrumentation counting each time
line 84 (`type_ = map_val_.find(map.ident)->second;`) dereferences a lookup
that found no entry. -/
structure St where
  mapArgs : List (String × List Ty)
  mapVal : List (String × Ty)
  err : List String
  ty : Ty
  misses : Nat
deriving DecidableEq, Repr

/-- The state a fresh `SemanticAnalyser` starts `analyse()` with: empty tables
and stream. -/
def initSt : St := ⟨[], [], [], Ty.none, 0⟩

/-- Diagnostic of `visit(Builtin&)`, line 25. -/
def unknownBuiltinMsg (ident : String) : String :=
  "Unknown builtin: '" ++ ident ++ "'\n"

/-- Diagnostic of `visit(Call&)`, lines 42-43. -/
def quantizeArityMsg (nargs : Nat) : String :=
  "quantize() should take 1 argument (" ++ toString nargs ++ " provided)\n"

/-- Diagnostic of `visit(Call&)`, lines 49-50. -/
def countArityMsg (nargs : Nat) : String :=
  "count() should take 0 arguments (" ++ toString nargs ++ " provided)\n"

/-- Diagnostic of `visit(Call&)`, line 55. -/
def unknownFunctionMsg (func : String) : String :=
  "Unknown function: '" ++ func ++ "'\n"

/-- The `[ t1 t2 ... ]` rendering of a signature inside the argument-mismatch
diagnostic (lines 74 and 76). -/
def typelist (ts : List Ty) : String :=
  String.join (ts.map (fun t => typestr t ++ " "))

/-- Diagnostic of `visit(Map&)`, lines 72-77: names the offending signature and
the recorded one. -/
def mapArgsMismatchMsg (ident : String) (args sig : List Ty) : String :=
  "Argument mismatch for " ++ ident ++ ": trying to access with arguments: [ "
    ++ typelist args ++ "]\n\twhen map already uses the arguments: [ "
    ++ typelist sig ++ "]\n\n"

/-- Diagnostic of `visit(AssignMapStatement&)`, lines 124-127. -/
def assignValueMismatchMsg (ident : String) (src rec : Ty) : String :=
  "Type mismatch for " ++ ident ++ ": trying to assign variable of type '"
    ++ typestr src ++ "'\n\twhen map already contains a value of type '"
    ++ typestr rec ++ "'\n\n"

/-- Diagnostic of `visit(AssignMapCallStatement&)`, lines 145-148: names the
call's function instead of the source's type. -/
def assignCallMismatchMsg (ident func : String) (rec : Ty) : String :=
  "Type mismatch for " ++ ident ++ ": trying to assign result of '"
    ++ func ++ "()'\n\twhen map already contains a value of type '"
    ++ typestr rec ++ "'\n\n"

/-- Diagnostic of `visit(Binop&)`, lines 96-98. -/
def binopMismatchMsg (op : String) (lhs rhs : Ty) : String :=
  "Type mismatch for '" ++ opstr op ++ "': comparing '" ++ typestr lhs
    ++ "' with '" ++ typestr rhs ++ "'\n"

mutual

/-- The expression-visiting half of the analyser (`visit(Integer&)`,
`visit(Builtin&)`, `visit(Call&)`, `visit(Map&)`, `visit(Binop&)`,
`visit(Unop&)`, lines 11-108).  `pass` is the `pass_` member; `junk` is the
unspecified value produced by the unchecked `map_val_` dereference on a missing
entry (line 84). -/
def visitExpr (pass : Nat) (junk : Ty) : Expr → St → St
  | Expr.integer _, st => { st with ty := Ty.integer }
  | Expr.builtin ident, st =>
      if ident = "nsecs" ∨ ident = "pid" ∨ ident = "tid" then
        { st with ty := Ty.integer }
      else
        { st with ty := Ty.none, err := st.err ++ [unknownBuiltinMsg ident] }
  | Expr.call func vargs, st =>
      let st1 := visitExprs pass junk vargs st
      if func = "quantize" then
        { st1 with ty := Ty.quantize,
                   err := st1.err ++
                     if vargs.length = 1 then [] else [quantizeArityMsg vargs.length] }
      else if func = "count" then
        { st1 with ty := Ty.count,
                   err := st1.err ++
                     if vargs.length = 0 then [] else [countArityMsg vargs.length] }
      else
        { st1 with ty := Ty.none, err := st1.err ++ [unknownFunctionMsg func] }
  | Expr.map ident vargs, st =>
      let p := collectArgs pass junk vargs st
      let st1 := p.1
      let args := p.2
      let st2 :=
        match st1.mapArgs.lookup ident with
        | some sig =>
            if sig ≠ args then
              { st1 with err := st1.err ++ [mapArgsMismatchMsg ident args sig] }
            else st1
        | Option.none => { st1 with mapArgs := (ident, args) :: st1.mapArgs }
      match st2.mapVal.lookup ident with
      | some v => { st2 with ty := v }
      | Option.none => { st2 with ty := junk, misses := st2.misses + 1 }
  | Expr.binop op l r, st =>
      let stl := visitExpr pass junk l st
      let lhs := stl.ty
      let str := visitExpr pass junk r stl
      let rhs := str.ty
      let st2 :=
        if pass = 2 ∧ lhs ≠ rhs then
          { str with err := str.err ++ [binopMismatchMsg op lhs rhs] }
        else str
      { st2 with ty := Ty.integer }
  | Expr.unop _ e, st =>
      let st1 := visitExpr pass junk e st
      { st1 with ty := Ty.integer }

/-- The argument loop of `visit(Call&)` (lines 32-37): visits each argument for
its side effects, discarding the collected types. -/
def visitExprs (pass : Nat) (junk : Ty) : List Expr → St → St
  | [], st => st
  | e :: es, st => visitExprs pass junk es (visitExpr pass junk e st)

/-- The key loop of `visit(Map&)` (lines 61-67): visits each key expression and
records the `type_` it leaves, building the access signature `args`. -/
def collectArgs (pass : Nat) (junk : Ty) : List Expr → St → St × List Ty
  | [], st => (st, [])
  | e :: es, st =>
      let st1 := visitExpr pass junk e st
      let p := collectArgs pass junk es st1
      (p.1, st1.ty :: p.2)

end

/-- The statement visits (`visit(ExprStatement&)`, `visit(AssignMapStatement&)`,
`visit(AssignMapCallStatement&)`, lines 110-155).  Both assignment forms visit
the map target, then the source, then look the identifier up in `map_val_`:
a recorded type that differs from the source's `type_` yields a diagnostic, a
missing entry records the source's `type_`. -/
def visitStmt (pass : Nat) (junk : Ty) : Stmt → St → St
  | Stmt.expr e, st => visitExpr pass junk e st
  | Stmt.assignMap ident keys src, st =>
      let st1 := visitExpr pass junk (Expr.map ident keys) st
      let st2 := visitExpr pass junk src st1
      match st2.mapVal.lookup ident with
      | some v =>
          if v ≠ st2.ty then
            { st2 with err := st2.err ++ [assignValueMismatchMsg ident st2.ty v] }
          else st2
      | Option.none => { st2 with mapVal := (ident, st2.ty) :: st2.mapVal }
  | Stmt.assignMapCall ident keys func vargs, st =>
      let st1 := visitExpr pass junk (Expr.map ident keys) st
      let st2 := visitExpr pass junk (Expr.call func vargs) st1
      match st2.mapVal.lookup ident with
      | some v =>
          if v ≠ st2.ty then
            { st2 with err := st2.err ++ [assignCallMismatchMsg ident func v] }
          else st2
      | Option.none => { st2 with mapVal := (ident, st2.ty) :: st2.mapVal }

/-- The statement loop of `visit(Probe&)` (lines 167-169). -/
def visitStmts (pass : Nat) (junk : Ty) : List Stmt → St → St
  | [], st => st
  | s :: ss, st => visitStmts pass junk ss (visitStmt pass junk s st)

/-- `visit(Probe&)`, lines 162-170: the predicate (when present, via
`visit(Predicate&)`, lines 157-160, which just visits the wrapped expression),
then the statements in order. -/
def visitProbe (pass : Nat) (junk : Ty) (p : Probe) (st : St) : St :=
  let st1 :=
    match p.pred with
    | some e => visitExpr pass junk e st
    | Option.none => st
  visitStmts pass junk p.stmts st1

/-- The probe loop of `visit(Program&)`, lines 172-177: one state is threaded
through every probe. -/
def visitProbes (pass : Nat) (junk : Ty) : List Probe → St → St
  | [], st => st
  | p :: ps, st => visitProbes pass junk ps (visitProbe pass junk p st)

/-- `visit(Program&)`. -/
def visitProgram (pass : Nat) (junk : Ty) (prog : Program) (st : St) : St :=
  visitProbes pass junk prog.probes st

/-- The contents of the `err_` stream: the concatenation of the appended
messages. -/
def joinErr (l : List String) : String := String.join l

/-- The pass loop of `analyse()` (lines 186-193), over the remaining pass
numbers: run the walk, read the stream; non-empty contents are written to
standard error and the pass number returned, otherwise the next pass runs.
The result pairs the return value with what was written to standard error. -/
def analyseLoop (junk : Ty) (root : Program) : List Nat → St → Nat × String
  | [], _ => (0, "")
  | p :: rest, st =>
      let st1 := visitProgram p junk root st
      let errors := joinErr st1.err
      if errors = "" then analyseLoop junk root rest st1
      else (p, errors)

/-- `SemanticAnalyser::analyse` (lines 179-196): two passes over the tree from
a fresh state; returns 0 and writes nothing when both passes end clean. -/
def analyse (junk : Ty) (root : Program) : Nat × String :=
  analyseLoop junk root [1, 2] initSt

/-- A program reading map `x` inside a binary operation before the statement
assigning it, with otherwise consistent types: `probe { @x + 1; @x = 2 }`. -/
def progBeforeAssign : Program :=
  ⟨[⟨Option.none, [Stmt.expr (Expr.binop "+" (Expr.map "x" []) (Expr.integer 1)),
                   Stmt.assignMap "x" [] (Expr.integer 2)]⟩]⟩

/-- A program whose first statement is the first-ever assignment to a fresh map
identifier: `probe { @x = 1 }`. -/
def progFreshAssign : Program :=
  ⟨[⟨Option.none, [Stmt.assignMap "x" [] (Expr.integer 1)]⟩]⟩

/-- A program assigning map `m` in its first probe and reading it (with the
same empty key signature) in its second probe:
`probe { @m = 1 } probe { @y = @m }`. -/
def progTwoProbes : Program :=
  ⟨[⟨Option.none, [Stmt.assignMap "m" [] (Expr.integer 1)]⟩,
    ⟨Option.none, [Stmt.assignMap "y" [] (Expr.map "m" [])]⟩]⟩

/-- A program with two independent unknown-builtin references in two different
probes: `probe { foo; } probe { bar; }`. -/
def progTwoBadBuiltins : Program :=
  ⟨[⟨Option.none, [Stmt.expr (Expr.builtin "foo")]⟩,
    ⟨Option.none, [Stmt.expr (Expr.builtin "bar")]⟩]⟩

mutual

theorem mapVal_visitExpr (pass : Nat) (junk : Ty) (e : Expr) (st : St) :
    (visitExpr pass junk e st).mapVal = st.mapVal := by
  cases e with
  | integer n => rfl
  | builtin ident => simp only [visitExpr]; split <;> rfl
  | call func vargs => simp only [visitExpr]; split <;> try split
                       all_goals rw [mapVal_visitExprs pass junk vargs st]
  | map ident vargs =>
      have h := mapVal_collectArgs pass junk vargs st
      simp only [visitExpr]
      repeat' split
      all_goals simp_all
  | binop op l r =>
      simp only [visitExpr]
      split <;>
        rw [mapVal_visitExpr pass junk r, mapVal_visitExpr pass junk l]
  | unop op e => simp only [visitExpr]; rw [mapVal_visitExpr pass junk e]

theorem mapVal_visitExprs (pass : Nat) (junk : Ty) (es : List Expr) (st : St) :
    (visitExprs pass junk es st).mapVal = st.mapVal := by
  cases es with
  | nil => rfl
  | cons e es =>
      simp only [visitExprs]
      rw [mapVal_visitExprs pass junk es, mapVal_visitExpr pass junk e]

theorem mapVal_collectArgs (pass : Nat) (junk : Ty) (es : List Expr) (st : St) :
    (collectArgs pass junk es st).1.mapVal = st.mapVal := by
  cases es with
  | nil => rfl
  | cons e es =>
      simp only [collectArgs]
      rw [mapVal_collectArgs pass junk es, mapVal_visitExpr pass junk e]

end

mutual

theorem err_mono_visitExpr (pass : Nat) (junk : Ty) (e : Expr) (st : St) :
    ∃ t, (visitExpr pass junk e st).err = st.err ++ t := by
  cases e with
  | integer n => exact ⟨[], by simp [visitExpr]⟩
  | builtin ident =>
      simp only [visitExpr]
      split
      · exact ⟨[], by simp⟩
      · exact ⟨[unknownBuiltinMsg ident], rfl⟩
  | call func vargs =>
      obtain ⟨t1, h1⟩ := err_mono_visitExprs pass junk vargs st
      simp only [visitExpr]
      repeat' split
      all_goals exact ⟨_, by rw [h1, List.append_assoc]⟩
  | map ident vargs =>
      obtain ⟨t1, h1⟩ := err_mono_collectArgs pass junk vargs st
      simp only [visitExpr]
      repeat' split
      all_goals first
        | exact ⟨t1, h1⟩
        | exact ⟨_, by rw [h1, List.append_assoc]⟩
  | binop op l r =>
      obtain ⟨t1, h1⟩ := err_mono_visitExpr pass junk l st
      obtain ⟨t2, h2⟩ := err_mono_visitExpr pass junk r (visitExpr pass junk l st)
      simp only [visitExpr]
      split
      · exact ⟨_, by simp only [h2, h1, List.append_assoc]; rfl⟩
      · exact ⟨_, by simp only [h2, h1, List.append_assoc]; rfl⟩
  | unop op e =>
      obtain ⟨t1, h1⟩ := err_mono_visitExpr pass junk e st
      exact ⟨t1, h1⟩

theorem err_mono_visitExprs (pass : Nat) (junk : Ty) (es : List Expr) (st : St) :
    ∃ t, (visitExprs pass junk es st).err = st.err ++ t := by
  cases es with
  | nil => exact ⟨[], by simp [visitExprs]⟩
  | cons e es =>
      obtain ⟨t1, h1⟩ := err_mono_visitExpr pass junk e st
      obtain ⟨t2, h2⟩ := err_mono_visitExprs pass junk es (visitExpr pass junk e st)
      exact ⟨t1 ++ t2, by simp only [visitExprs]; rw [h2, h1]; simp⟩

theorem err_mono_collectArgs (pass : Nat) (junk : Ty) (es : List Expr) (st : St) :
    ∃ t, (collectArgs pass junk es st).1.err = st.err ++ t := by
  cases es with
  | nil => exact ⟨[], by simp [collectArgs]⟩
  | cons e es =>
      obtain ⟨t1, h1⟩ := err_mono_visitExpr pass junk e st
      obtain ⟨t2, h2⟩ := err_mono_collectArgs pass junk es (visitExpr pass junk e st)
      exact ⟨t1 ++ t2, by simp only [collectArgs]; rw [h2, h1]; simp⟩

end

theorem err_mono_visitStmt (pass : Nat) (junk : Ty) (s : Stmt) (st : St) :
    ∃ t, (visitStmt pass junk s st).err = st.err ++ t := by
  cases s with
  | expr e => exact err_mono_visitExpr pass junk e st
  | assignMap ident keys src =>
      obtain ⟨t1, h1⟩ := err_mono_visitExpr pass junk (Expr.map ident keys) st
      obtain ⟨t2, h2⟩ :=
        err_mono_visitExpr pass junk src (visitExpr pass junk (Expr.map ident keys) st)
      simp only [visitStmt]
      repeat' split
      all_goals exact ⟨_, by simp only [h2, h1, List.append_assoc]; rfl⟩
  | assignMapCall ident keys func vargs =>
      obtain ⟨t1, h1⟩ := err_mono_visitExpr pass junk (Expr.map ident keys) st
      obtain ⟨t2, h2⟩ := err_mono_visitExpr pass junk (Expr.call func vargs)
        (visitExpr pass junk (Expr.map ident keys) st)
      simp only [visitStmt]
      repeat' split
      all_goals exact ⟨_, by simp only [h2, h1, List.append_assoc]; rfl⟩

theorem err_mono_visitStmts (pass : Nat) (junk : Ty) (ss : List Stmt) (st : St) :
    ∃ t, (visitStmts pass junk ss st).err = st.err ++ t := by
  induction ss generalizing st with
  | nil => exact ⟨[], by simp [visitStmts]⟩
  | cons s ss ih =>
      obtain ⟨t1, h1⟩ := err_mono_visitStmt pass junk s st
      obtain ⟨t2, h2⟩ := ih (visitStmt pass junk s st)
      exact ⟨t1 ++ t2, by simp only [visitStmts]; rw [h2, h1]; simp⟩

theorem err_mono_visitProbe (pass : Nat) (junk : Ty) (p : Probe) (st : St) :
    ∃ t, (visitProbe pass junk p st).err = st.err ++ t := by
  cases p with
  | mk pred stmts =>
      cases pred with
      | none => exact err_mono_visitStmts pass junk stmts st
      | some e =>
          obtain ⟨t1, h1⟩ := err_mono_visitExpr pass junk e st
          obtain ⟨t2, h2⟩ := err_mono_visitStmts pass junk stmts (visitExpr pass junk e st)
          exact ⟨t1 ++ t2, by simp only [visitProbe]; rw [h2, h1]; simp⟩

theorem err_mono_visitProbes (pass : Nat) (junk : Ty) (ps : List Probe) (st : St) :
    ∃ t, (visitProbes pass junk ps st).err = st.err ++ t := by
  induction ps generalizing st with
  | nil => exact ⟨[], by simp [visitProbes]⟩
  | cons p ps ih =>
      obtain ⟨t1, h1⟩ := err_mono_visitProbe pass junk p st
      obtain ⟨t2, h2⟩ := ih (visitProbe pass junk p st)
      exact ⟨t1 ++ t2, by simp only [visitProbes]; rw [h2, h1]; simp⟩

/-- C1: the binary-operand type-mismatch diagnostic fires only on pass 2.  On
pass 1 a `Binop` visit appends nothing beyond its operands' own diagnostics; on
pass 2 it appends exactly one mismatch diagnostic when the operand types differ
and none when they agree; and the program `probe { @x + 1; @x = 2 }`, which
reads map `x` in a binary operation before the statement assigning it, analyses
with success and no error output, whatever value the unchecked pass-1 lookup
returned. -/
theorem binop_mismatch_only_pass_two :
    (∀ junk op l r st,
      visitExpr 1 junk (Expr.binop op l r) st =
        { visitExpr 1 junk r (visitExpr 1 junk l st) with ty := Ty.integer }) ∧
    (∀ junk op l r st,
      visitExpr 2 junk (Expr.binop op l r) st =
        { visitExpr 2 junk r (visitExpr 2 junk l st) with
          ty := Ty.integer,
          err := (visitExpr 2 junk r (visitExpr 2 junk l st)).err ++
            if (visitExpr 2 junk l st).ty = (visitExpr 2 junk r (visitExpr 2 junk l st)).ty
            then []
            else [binopMismatchMsg op (visitExpr 2 junk l st).ty
                    (visitExpr 2 junk r (visitExpr 2 junk l st)).ty] }) ∧
    (∀ junk, analyse junk progBeforeAssign = (0, "")) := by
  refine ⟨?_, ?_, ?_⟩
  · intro junk op l r st
    simp [visitExpr]
  · intro junk op l r st
    by_cases h : (visitExpr 2 junk l st).ty = (visitExpr 2 junk r (visitExpr 2 junk l st)).ty
    · simp [visitExpr, h]
    · simp [visitExpr, h]
  · intro junk
    cases junk <;> rfl

/-- C5: stopping policy of `analyse()`: the tree is walked at most twice; a
pass whose end finds non-empty stream contents makes `analyse()` write exactly
those contents (all accumulated diagnostics, in order) and return that pass's
1-based number, so a pass-1 diagnostic prevents pass 2 from running; two clean
passes write nothing and return 0. -/
theorem analyse_stopping_policy (junk : Ty) (root : Program) :
    (joinErr (visitProgram 1 junk root initSt).err ≠ "" →
      analyse junk root = (1, joinErr (visitProgram 1 junk root initSt).err)) ∧
    (joinErr (visitProgram 1 junk root initSt).err = "" →
      joinErr (visitProgram 2 junk root (visitProgram 1 junk root initSt)).err ≠ "" →
      analyse junk root =
        (2, joinErr (visitProgram 2 junk root (visitProgram 1 junk root initSt)).err)) ∧
    (joinErr (visitProgram 1 junk root initSt).err = "" →
      joinErr (visitProgram 2 junk root (visitProgram 1 junk root initSt)).err = "" →
      analyse junk root = (0, "")) := by
  refine ⟨?_, ?_, ?_⟩
  · intro h1
    simp [analyse, analyseLoop, h1]
  · intro h1 h2
    simp [analyse, analyseLoop, h1, h2]
  · intro h1 h2
    simp [analyse, analyseLoop, h1, h2]

theorem analyse_stopping_policy_witness :
    joinErr (visitProgram 1 Ty.none progTwoBadBuiltins initSt).err ≠ "" ∧
    analyse Ty.none progTwoBadBuiltins =
      (1, joinErr (visitProgram 1 Ty.none progTwoBadBuiltins initSt).err) :=
  ⟨by decide, (analyse_stopping_policy Ty.none progTwoBadBuiltins).1 (by decide)⟩

/-- C6: the value-type lookup of every `Map` visit (line 84) is used unchecked:
visiting a map with an empty `map_val_` table leaves the unspecified dereference
result `junk` in the `type_` register; in the program `probe { @x = 1 }`, whose
first statement is the first-ever assignment to the fresh map `x`, pass 1
visits the map target before the source's type is recorded, so exactly one such
lookup finds no entry — yet `analyse()` must and does succeed. -/
theorem map_lookup_unchecked (junk : Ty) :
    (visitExpr 1 junk (Expr.map "x" []) initSt).ty = junk ∧
    (visitProgram 1 junk progFreshAssign initSt).misses = 1 ∧
    analyse junk progFreshAssign = (0, "") := by
  refine ⟨?_, ?_, ?_⟩ <;> cases junk <;> rfl

/-- C7: both map tables are shared across probes: each probe of a program is
visited on the state left by the previous one, and in the program
`probe { @m = 1 } probe { @y = @m }` the map `m` assigned in probe 1 is read in
probe 2 with a consistent signature: after pass 1 its value type is recorded as
Integer, a pass-2 read of `@m` resolves to Integer, and the whole analysis
succeeds with no diagnostic. -/
theorem map_tables_shared_across_probes (junk : Ty) :
    (∀ pass p ps st, visitProbes pass junk (p :: ps) st =
        visitProbes pass junk ps (visitProbe pass junk p st)) ∧
    (visitProgram 1 junk progTwoProbes initSt).mapVal.lookup "m" = some Ty.integer ∧
    (visitExpr 2 junk (Expr.map "m" []) (visitProgram 1 junk progTwoProbes initSt)).ty
      = Ty.integer ∧
    analyse junk progTwoProbes = (0, "") := by
  refine ⟨fun _ _ _ _ => rfl, ?_, ?_, ?_⟩ <;> cases junk <;> rfl

/-- C8: a `Builtin` visit infers Integer exactly for the three recognized names
`nsecs`, `pid` and `tid`, touching nothing else; any other identifier infers
None and appends exactly one "Unknown builtin" diagnostic per visit. -/
theorem builtin_type_rule (pass : Nat) (junk : Ty) (ident : String) (st : St) :
    (ident = "nsecs" ∨ ident = "pid" ∨ ident = "tid" →
      visitExpr pass junk (Expr.builtin ident) st = { st with ty := Ty.integer }) ∧
    (¬(ident = "nsecs" ∨ ident = "pid" ∨ ident = "tid") →
      visitExpr pass junk (Expr.builtin ident) st =
        { st with ty := Ty.none, err := st.err ++ [unknownBuiltinMsg ident] }) := by
  constructor <;> intro h <;> simp [visitExpr, h]

theorem builtin_type_rule_witness :
    ¬("timestamp" = "nsecs" ∨ "timestamp" = "pid" ∨ "timestamp" = "tid") ∧
    visitExpr 1 Ty.none (Expr.builtin "timestamp") initSt =
      { initSt with ty := Ty.none, err := initSt.err ++ [unknownBuiltinMsg "timestamp"] } :=
  ⟨by decide, (builtin_type_rule 1 Ty.none "timestamp" initSt).2 (by decide)⟩

/-- C2: map value-type stability: an assignment statement (plain or call form)
whose identifier has no recorded value type records its source's inferred type
and appends no diagnostic; when a type `v` is already recorded, the table entry
stays `v` (never overwritten) and exactly one value-type-mismatch diagnostic is
appended when the source's type differs from `v`, none when it agrees. -/
theorem assign_value_type_stability (pass : Nat) (junk : Ty) (ident : String)
    (keys : List Expr) (src : Expr) (func : String) (vargs : List Expr) (st : St) :
    (st.mapVal.lookup ident = Option.none →
      (visitStmt pass junk (Stmt.assignMap ident keys src) st).mapVal.lookup ident =
        some (visitExpr pass junk src (visitExpr pass junk (Expr.map ident keys) st)).ty ∧
      (visitStmt pass junk (Stmt.assignMap ident keys src) st).err =
        (visitExpr pass junk src (visitExpr pass junk (Expr.map ident keys) st)).err) ∧
    (∀ v, st.mapVal.lookup ident = some v →
      (visitStmt pass junk (Stmt.assignMap ident keys src) st).mapVal.lookup ident = some v ∧
      (visitStmt pass junk (Stmt.assignMap ident keys src) st).err =
        (visitExpr pass junk src (visitExpr pass junk (Expr.map ident keys) st)).err ++
          if v = (visitExpr pass junk src (visitExpr pass junk (Expr.map ident keys) st)).ty
          then []
          else [assignValueMismatchMsg ident
                  (visitExpr pass junk src (visitExpr pass junk (Expr.map ident keys) st)).ty v]) ∧
    (st.mapVal.lookup ident = Option.none →
      (visitStmt pass junk (Stmt.assignMapCall ident keys func vargs) st).mapVal.lookup ident =
        some (visitExpr pass junk (Expr.call func vargs)
          (visitExpr pass junk (Expr.map ident keys) st)).ty ∧
      (visitStmt pass junk (Stmt.assignMapCall ident keys func vargs) st).err =
        (visitExpr pass junk (Expr.call func vargs)
          (visitExpr pass junk (Expr.map ident keys) st)).err) ∧
    (∀ v, st.mapVal.lookup ident = some v →
      (visitStmt pass junk (Stmt.assignMapCall ident keys func vargs) st).mapVal.lookup ident
        = some v ∧
      (visitStmt pass junk (Stmt.assignMapCall ident keys func vargs) st).err =
        (visitExpr pass junk (Expr.call func vargs)
          (visitExpr pass junk (Expr.map ident keys) st)).err ++
          if v = (visitExpr pass junk (Expr.call func vargs)
                    (visitExpr pass junk (Expr.map ident keys) st)).ty
          then []
          else [assignCallMismatchMsg ident func v]) := by
  have hmv1 :
      (visitExpr pass junk src (visitExpr pass junk (Expr.map ident keys) st)).mapVal
        = st.mapVal := by
    rw [mapVal_visitExpr, mapVal_visitExpr]
  have hmv2 :
      (visitExpr pass junk (Expr.call func vargs)
        (visitExpr pass junk (Expr.map ident keys) st)).mapVal = st.mapVal := by
    rw [mapVal_visitExpr, mapVal_visitExpr]
  refine ⟨?_, ?_, ?_, ?_⟩
  · intro h
    simp [visitStmt, hmv1, h, List.lookup]
  · intro v h
    by_cases hv : v = (visitExpr pass junk src (visitExpr pass junk (Expr.map ident keys) st)).ty
    · simp [visitStmt, hmv1, h, hv]
    · simp [visitStmt, hmv1, h, hv]
  · intro h
    simp [visitStmt, hmv2, h, List.lookup]
  · intro v h
    by_cases hv : v = (visitExpr pass junk (Expr.call func vargs)
        (visitExpr pass junk (Expr.map ident keys) st)).ty
    · simp [visitStmt, hmv2, h, hv]
    · simp [visitStmt, hmv2, h, hv]

theorem assign_value_type_stability_witness :
    (St.mk [] [("m", Ty.integer)] [] Ty.none 0).mapVal.lookup "m" = some Ty.integer ∧
    (visitStmt 1 Ty.none (Stmt.assignMap "m" [] (Expr.call "quantize" [Expr.integer 1]))
      (St.mk [] [("m", Ty.integer)] [] Ty.none 0)).mapVal.lookup "m" = some Ty.integer ∧
    (visitStmt 1 Ty.none (Stmt.assignMap "m" [] (Expr.call "quantize" [Expr.integer 1]))
      (St.mk [] [("m", Ty.integer)] [] Ty.none 0)).err =
      (visitExpr 1 Ty.none (Expr.call "quantize" [Expr.integer 1])
        (visitExpr 1 Ty.none (Expr.map "m" []) (St.mk [] [("m", Ty.integer)] [] Ty.none 0))).err
        ++
        if Ty.integer = (visitExpr 1 Ty.none (Expr.call "quantize" [Expr.integer 1])
            (visitExpr 1 Ty.none (Expr.map "m" [])
              (St.mk [] [("m", Ty.integer)] [] Ty.none 0))).ty
        then []
        else [assignValueMismatchMsg "m"
                (visitExpr 1 Ty.none (Expr.call "quantize" [Expr.integer 1])
                  (visitExpr 1 Ty.none (Expr.map "m" [])
                    (St.mk [] [("m", Ty.integer)] [] Ty.none 0))).ty Ty.integer] := by
  have h := (assign_value_type_stability 1 Ty.none "m" [] (Expr.call "quantize" [Expr.integer 1])
    "f" [] (St.mk [] [("m", Ty.integer)] [] Ty.none 0)).2.1 Ty.integer (by decide)
  exact ⟨by decide, h.1, h.2⟩

/-- C3: map key-signature stability: a `Map` visit whose identifier has no
recorded signature records the ordered key-type sequence it collected and
appends no diagnostic; when a signature `sig` is already recorded, the table is
left unchanged (never overwritten, only compared) and exactly one key-signature
mismatch diagnostic naming both signatures is appended when the collected
sequence differs from `sig` (element-wise, length included), none when it is
equal. -/
theorem map_key_signature_stability (pass : Nat) (junk : Ty) (ident : String)
    (keys : List Expr) (st : St) :
    ((collectArgs pass junk keys st).1.mapArgs.lookup ident = Option.none →
      (visitExpr pass junk (Expr.map ident keys) st).mapArgs.lookup ident =
        some (collectArgs pass junk keys st).2 ∧
      (visitExpr pass junk (Expr.map ident keys) st).err =
        (collectArgs pass junk keys st).1.err) ∧
    (∀ sig, (collectArgs pass junk keys st).1.mapArgs.lookup ident = some sig →
      (visitExpr pass junk (Expr.map ident keys) st).mapArgs =
        (collectArgs pass junk keys st).1.mapArgs ∧
      (visitExpr pass junk (Expr.map ident keys) st).mapArgs.lookup ident = some sig ∧
      (visitExpr pass junk (Expr.map ident keys) st).err =
        (collectArgs pass junk keys st).1.err ++
          if sig = (collectArgs pass junk keys st).2
          then []
          else [mapArgsMismatchMsg ident (collectArgs pass junk keys st).2 sig]) := by
  constructor
  · intro h
    simp only [visitExpr, h]
    cases hv : ((collectArgs pass junk keys st).1.mapVal).lookup ident <;>
      simp [hv, List.lookup]
  · intro sig h
    by_cases hs : sig = (collectArgs pass junk keys st).2
    · simp only [visitExpr, h]
      cases hv : ((collectArgs pass junk keys st).1.mapVal).lookup ident <;>
        simp [hv, hs, h]
    · simp only [visitExpr, h]
      cases hv : ((collectArgs pass junk keys st).1.mapVal).lookup ident <;>
        simp [hv, hs, h]

theorem map_key_signature_stability_witness :
    (collectArgs 1 Ty.none [Expr.integer 1, Expr.integer 2]
      (St.mk [("m", [Ty.integer])] [] [] Ty.none 0)).1.mapArgs.lookup "m"
      = some [Ty.integer] ∧
    (visitExpr 1 Ty.none (Expr.map "m" [Expr.integer 1, Expr.integer 2])
      (St.mk [("m", [Ty.integer])] [] [] Ty.none 0)).mapArgs =
      (collectArgs 1 Ty.none [Expr.integer 1, Expr.integer 2]
        (St.mk [("m", [Ty.integer])] [] [] Ty.none 0)).1.mapArgs ∧
    (visitExpr 1 Ty.none (Expr.map "m" [Expr.integer 1, Expr.integer 2])
      (St.mk [("m", [Ty.integer])] [] [] Ty.none 0)).mapArgs.lookup "m"
      = some [Ty.integer] ∧
    (visitExpr 1 Ty.none (Expr.map "m" [Expr.integer 1, Expr.integer 2])
      (St.mk [("m", [Ty.integer])] [] [] Ty.none 0)).err =
      (collectArgs 1 Ty.none [Expr.integer 1, Expr.integer 2]
        (St.mk [("m", [Ty.integer])] [] [] Ty.none 0)).1.err ++
        if [Ty.integer] = (collectArgs 1 Ty.none [Expr.integer 1, Expr.integer 2]
            (St.mk [("m", [Ty.integer])] [] [] Ty.none 0)).2
        then []
        else [mapArgsMismatchMsg "m"
                (collectArgs 1 Ty.none [Expr.integer 1, Expr.integer 2]
                  (St.mk [("m", [Ty.integer])] [] [] Ty.none 0)).2 [Ty.integer]] := by
  have h := (map_key_signature_stability 1 Ty.none "m" [Expr.integer 1, Expr.integer 2]
    (St.mk [("m", [Ty.integer])] [] [] Ty.none 0)).2 [Ty.integer] (by decide)
  exact ⟨by decide, h.1, h.2.1, h.2.2⟩

/-- C4 counterexample: the claim's "and None otherwise" clause covers the
histogram call with a wrong argument count, so for the node `quantize()` with 0
arguments it demands inferred type None; the analyser instead infers Quantize
(alongside the arity diagnostic). -/
theorem call_type_rule_counterexample :
    (visitExpr 1 Ty.none (Expr.call "quantize" []) initSt).ty = Ty.quantize ∧
    (visitExpr 1 Ty.none (Expr.call "quantize" []) initSt).ty ≠ Ty.none ∧
    (visitExpr 1 Ty.none (Expr.call "quantize" []) initSt).err
      = [quantizeArityMsg 0] := by
  refine ⟨rfl, by decide, rfl⟩

/-- C4 (amended): a `Call` visit infers Quantize whenever the function is
"quantize" and Count whenever it is "count" — regardless of the argument count,
a wrong count additionally appending one diagnostic naming the function and the
actual count — and infers None with an "Unknown function" diagnostic for every
other name; in each case the argument sub-expressions are visited first, so
their side effects on the map tables occur even when the call is invalid. -/
theorem call_type_rule (pass : Nat) (junk : Ty) (func : String) (vargs : List Expr) (st : St) :
    (func = "quantize" →
      visitExpr pass junk (Expr.call func vargs) st =
        { visitExprs pass junk vargs st with
          ty := Ty.quantize,
          err := (visitExprs pass junk vargs st).err ++
            if vargs.length = 1 then [] else [quantizeArityMsg vargs.length] }) ∧
    (func = "count" →
      visitExpr pass junk (Expr.call func vargs) st =
        { visitExprs pass junk vargs st with
          ty := Ty.count,
          err := (visitExprs pass junk vargs st).err ++
            if vargs.length = 0 then [] else [countArityMsg vargs.length] }) ∧
    (func ≠ "quantize" → func ≠ "count" →
      visitExpr pass junk (Expr.call func vargs) st =
        { visitExprs pass junk vargs st with
          ty := Ty.none,
          err := (visitExprs pass junk vargs st).err ++ [unknownFunctionMsg func] }) := by
  refine ⟨?_, ?_, ?_⟩
  · intro h
    simp [visitExpr, h]
  · intro h
    simp [visitExpr, h]
  · intro h1 h2
    simp [visitExpr, h1, h2]

theorem call_type_rule_witness :
    ("histo" ≠ "quantize") ∧ ("histo" ≠ "count") ∧
    visitExpr 1 Ty.none (Expr.call "histo" [Expr.map "m" []]) initSt =
      { visitExprs 1 Ty.none [Expr.map "m" []] initSt with
        ty := Ty.none,
        err := (visitExprs 1 Ty.none [Expr.map "m" []] initSt).err
          ++ [unknownFunctionMsg "histo"] } :=
  ⟨by decide, by decide,
    (call_type_rule 1 Ty.none "histo" [Expr.map "m" []] initSt).2.2 (by decide) (by decide)⟩

/-- C9: batch diagnostics with local recovery: every visit only appends to the
diagnostic sink and the walk continues, and the program
`probe { foo; } probe { bar; }`, holding two independent unknown-builtin
references in two different probes, accumulates exactly two diagnostics in its
one failing pass — pass 1 — before `analyse()` stops. -/
theorem batch_diagnostics_local_recovery :
    (∀ pass junk e st, ∃ t, (visitExpr pass junk e st).err = st.err ++ t) ∧
    (∀ pass junk s st, ∃ t, (visitStmt pass junk s st).err = st.err ++ t) ∧
    (∀ pass junk p st, ∃ t, (visitProbe pass junk p st).err = st.err ++ t) ∧
    (∀ junk, (visitProgram 1 junk progTwoBadBuiltins initSt).err =
      [unknownBuiltinMsg "foo", unknownBuiltinMsg "bar"]) ∧
    (∀ junk, analyse junk progTwoBadBuiltins =
      (1, joinErr [unknownBuiltinMsg "foo", unknownBuiltinMsg "bar"])) := by
  refine ⟨fun pass junk e st => err_mono_visitExpr pass junk e st,
          fun pass junk s st => err_mono_visitStmt pass junk s st,
          fun pass junk p st => err_mono_visitProbe pass junk p st, ?_, ?_⟩
  · intro junk; cases junk <;> rfl
  · intro junk; cases junk <;> rfl

/-- C10: `typestr` is total on the closed `Type` set, mapping its four values to
the stable names "none", "integer", "quantize" and "count", and the switch's
fatal-abort default branch (the `Option.none` result of `typestrCode`) is
unreachable for inputs in that set. -/
theorem typestr_total_on_closed_set :
    typestr Ty.none = "none" ∧ typestr Ty.integer = "integer" ∧
    typestr Ty.quantize = "quantize" ∧ typestr Ty.count = "count" ∧
    (∀ t : Ty, typestrCode (Ty.code t) = some (typestr t)) := by
  refine ⟨rfl, rfl, rfl, rfl, ?_⟩
  intro t
  cases t <;> rfl

end SemanticAnalyser
